import Mathlib

/-!
Shallow embedding of the qtc-cppcheck checker scheduler
(`src/CppcheckRunner.cpp`) and options widget (`src/OptionsWidget.cpp`).

String values model `QString` contents as sequences of characters; for the
ASCII data these functions handle, `QString::length` (UTF-16 units) agrees
with character counts.
-/

namespace QtcCppcheck

/-- Models `QString::trimmed`: removes whitespace from both ends.
(Qt also strips `\v`/`\f`, which Lean's `Char.isWhitespace` omits; no claim
depends on those characters.) -/
def qTrimmed (s : String) : String :=
  (((s.toList.dropWhile Char.isWhitespace).reverse.dropWhile Char.isWhitespace).reverse).asString

/-- Split a character list at every occurrence of `sep`, keeping empty parts. -/
def splitOnChar (sep : Char) : List Char → List (List Char)
  | [] => [[]]
  | c :: t =>
    let r := splitOnChar sep t
    if c = sep then [] :: r
    else
      match r with
      | [] => [[c]]
      | h :: t2 => (c :: h) :: t2

/-- Models `QString::split(sep)` with the default `KeepEmptyParts` behaviour. -/
def qSplit (sep : Char) (s : String) : List String :=
  (splitOnChar sep s.toList).map List.asString

/-- Models `QStringList::join(sep)`. -/
def qJoin (sep : String) : List String → String
  | [] => ""
  | x :: rest => rest.foldl (fun acc y => acc ++ sep ++ y) x

/-- Index of the first occurrence of `pat` in a character list, if any. -/
def listIndexOf (pat : List Char) : List Char → Option Nat
  | [] => if pat.isPrefixOf ([] : List Char) then some 0 else none
  | c :: t =>
    if pat.isPrefixOf (c :: t) then some 0
    else (listIndexOf pat t).map (· + 1)

/-- Models `QString::indexOf(pat)`: first occurrence index, `-1` if absent. -/
def qIndexOf (s pat : String) : Int :=
  match listIndexOf pat.toList s.toList with
  | some n => (n : Int)
  | none => -1

/-- Models `QString::mid(position, n)` including Qt's clamping of negative
and out-of-range positions and lengths (`QContainerImplHelper::mid`).
`n = -1` means "to the end". -/
def qMid (s : String) (position n : Int) : String :=
  let len : Int := (s.toList.length : Int)
  if position > len then ""
  else if position < 0 then
    if n < 0 ∨ n + position ≥ len then s
    else if n + position ≤ 0 then ""
    else (s.toList.take (n + position).toNat).asString
  else
    let m := if n < 0 ∨ n > len - position then len - position else n
    ((s.toList.drop position.toNat).take m.toNat).asString

/-- Models `QDir::fromNativeSeparators`: native separators become `/`
(the identity on POSIX, where paths already use forward slashes). -/
def fromNativeSeparators (p : String) : String :=
  (p.toList.map (fun c => if c = '\\' then '/' else c)).asString

/-- Models `QString::at(0).toLatin1()` — the first character. The source
requires the string to be non-empty (a `QString::at` precondition); the
default is never reached under that precondition. -/
def stringFront (s : String) : Char := s.toList.headD 'A'

/-- Numeric value of a digit list, most significant first. -/
def digitsToNat (ds : List Char) : Nat :=
  ds.foldl (fun acc c => 10 * acc + (c.toNat - '0'.toNat)) 0

/-- Models `QString::toInt`: optional sign followed by digits, surrounding
whitespace allowed, `0` on any parse failure (overflow is not modelled). -/
def qToInt (str : String) : Int :=
  let core : List Char → Int := fun ds =>
    if !ds.isEmpty && ds.all Char.isDigit then (digitsToNat ds : Int) else 0
  match (qTrimmed str).toList with
  | '-' :: ds => - core ds
  | '+' :: ds => core ds
  | ds => core ds

/-- Field access `details.at(i)`; the source always accesses in-bounds
indices (guarded by the field-count check). -/
def getField (details : List String) (i : Nat) : String :=
  (details.get? i).getD ""

/-- One structured finding, as emitted by the `newTask` signal
(severity char, rule id, message, file, line number). -/
structure Task where
  severity : Char
  id : String
  description : String
  file : String
  lineNumber : Int
  deriving DecidableEq, Repr

/-- Models the per-line body of `CppcheckRunner::readError`
(src/CppcheckRunner.cpp lines 213-235): trim the raw line, skip it when
empty, split on commas, skip it when it has at most `ErrorFieldMessage = 4`
fields, otherwise emit a task built from the five fields. -/
def readErrorLine (showId : Bool) (rawLine : String) : Option Task :=
  let line := qTrimmed rawLine
  if line = "" then none
  else
    let details := qSplit ',' line
    if details.length ≤ 4 then none
    else
      let file := fromNativeSeparators (getField details 0)
      let lineNumber := qToInt (getField details 1)
      let severity := stringFront (getField details 2)
      let id := if showId then getField details 3 else ""
      let description := qMid line (qIndexOf line (getField details 4)) (-1)
      some ⟨severity, id, description, file, lineNumber⟩

/-- The help flag constant of OptionsWidget.cpp. -/
def helpArg : String := "--help"

/-- Models `OptionsWidget::finished` (src/OptionsWidget.cpp lines 51-68):
read captured standard output, and when the process was invoked with the
help flag, locate the two literal markers and show the `mid` extract in a
text editor. `some t` means a text surface with contents `t` is shown;
`none` means nothing is shown. -/
def optionsWidgetFinished (processArguments : List String) (output : String) : Option String :=
  let outputString := qTrimmed output
  if processArguments.contains helpArg then
    let startIndex := qIndexOf outputString "Options:"
    let endIndex := qIndexOf outputString "Example usage:"
    if startIndex ≥ endIndex then none
    else some (qMid outputString startIndex (endIndex - startIndex))
  else none

/-- The mutable state of a `CppcheckRunner` that the claims depend on.
Scratch-file contents on disk are modelled as the written byte strings
(`fileListFileDisk`, `includeListFileDisk`); `fileListFileContents` is the
in-memory `fileListFileContents_` cache used for the rewrite-avoidance
comparison. `processOpen` models `process_.isOpen()`. -/
structure RunnerState where
  fileCheckQueue : List String
  currentlyCheckingFiles : List String
  processOpen : Bool
  fileListFileContents : List String
  fileListFileDisk : String
  includeListFileDisk : String
  includePaths : List String
  deriving DecidableEq, Repr

/-- A fresh runner: empty queue, no current files, no process, empty
scratch-file cache and files, no include paths. -/
def initialRunnerState : RunnerState :=
  ⟨[], [], false, [], "", "", []⟩

/-- The environment a dispatch reads: settings values, the fixed argument
template built by `updateSettings`, the argument-length ceiling probed at
construction, the scratch files' names, and whether opening the scratch
files succeeds (external filesystem behaviour). -/
structure RunnerConfig where
  binaryFile : String
  expandedCustomParameters : String
  runArguments : List String
  ignoreIncludePaths : Bool
  maxArgumentsLength : Nat
  fileListFileName : String
  includeListFileName : String
  openSucceeds : Bool
  deriving DecidableEq, Repr

/-- Observable effects of one `checkQueuedFiles` invocation: the file set a
process start is announced for (`startedChecking` + `process_.start`), the
argument list passed to the process, whether the scratch-open failure was
logged, and whether each scratch file was truncated-and-rewritten. -/
structure DispatchOutcome where
  started : Option (List String)
  argumentsUsed : List String
  errorLogged : Bool
  fileListWritten : Bool
  includeListWritten : Bool
  deriving DecidableEq, Repr

/-- The outcome of an invocation that starts nothing and writes nothing. -/
def noDispatch : DispatchOutcome := ⟨none, [], false, false, false⟩

/-- Models `QString::split(' ', QString::SkipEmptyParts)` applied to the
macro-expanded custom parameters. -/
def splitSkipEmptyParts (s : String) : List String :=
  (qSplit ' ' s).filter (fun p => p ≠ "")

/-- Models `QStringList::removeDuplicates` (keeps first occurrences);
`seen` accumulates the entries already kept. -/
def removeDuplicatesAux (seen : List String) : List String → List String
  | [] => []
  | x :: xs =>
    if seen.contains x then removeDuplicatesAux seen xs
    else x :: removeDuplicatesAux (x :: seen) xs

/-- Models `QStringList::removeDuplicates`. -/
def removeDuplicates (xs : List String) : List String :=
  removeDuplicatesAux [] xs

/-- Insert into an ascending list, used to model `QStringList::sort`. -/
def sortedInsert (x : String) : List String → List String
  | [] => [x]
  | y :: ys => if y < x then y :: sortedInsert x ys else x :: y :: ys

/-- Models `QStringList::sort` (ascending, case-sensitive). -/
def sortStrings : List String → List String
  | [] => []
  | x :: xs => sortedInsert x (sortStrings xs)

/-- Models `CppcheckRunner::setIncludePaths` (lines 92-98): clear the
stored flags, then append `-I` + path for each given path. -/
def setIncludePaths (paths : List String) (s : RunnerState) : RunnerState :=
  { s with includePaths := paths.foldl (fun acc i => acc ++ ["-I" ++ i]) [] }

/-- Models `CppcheckRunner::checkFiles` (lines 100-117): merge the request
into the queue, deduplicate, sort; if a process is open and the merged
queue equals the currently checked set, kill the process (the returned
`Bool`). The debounce timer only delays the idle-path dispatch and carries
no state the claims depend on, so it is not modelled further. -/
def checkFiles (fileNames : List String) (s : RunnerState) : RunnerState × Bool :=
  let queue := sortStrings (removeDuplicates (s.fileCheckQueue ++ fileNames))
  let s1 := { s with fileCheckQueue := queue }
  if s.processOpen then
    if queue = s.currentlyCheckingFiles then (s1, true) else (s1, false)
  else (s1, false)

/-- Models `CppcheckRunner::stopChecking` (lines 119-124): clear the queue;
kill the process if one is open (the returned `Bool`). -/
def stopChecking (s : RunnerState) : RunnerState × Bool :=
  ({ s with fileCheckQueue := [] }, s.processOpen)

/-- Models `QString::mid(2)` applied to each include flag (line 159). -/
def stripIncludeFlag (i : String) : String := qMid i 2 (-1)

/-- The argument prefix of a dispatch: macro-expanded custom parameters
split on spaces, followed by the fixed run arguments (lines 135-138). -/
def dispatchArguments (cfg : RunnerConfig) : List String :=
  splitSkipEmptyParts cfg.expandedCustomParameters ++ cfg.runArguments

/-- The include flags a dispatch passes: the stored flags unless the
ignore-include-paths setting is on (line 140). -/
def dispatchIncludes (cfg : RunnerConfig) (s : RunnerState) : List String :=
  if !cfg.ignoreIncludePaths then s.includePaths else []

/-- The length test of lines 144-147: each of the three groups joined by
spaces, lengths summed. -/
def dispatchTotalLength (cfg : RunnerConfig) (s : RunnerState) : Nat :=
  (qJoin " " (dispatchArguments cfg)).length
    + (qJoin " " (dispatchIncludes cfg s)).length
    + (qJoin " " s.fileCheckQueue).length

/-- Models `CppcheckRunner::checkQueuedFiles` (lines 126-184): no-op on an
empty queue or unset binary; otherwise move the queue into the current set,
compare the joined argument/include/file lengths against the ceiling, and
either pass files and includes inline or spill them to the two scratch
files (rewritten only when the cached file list differs), aborting with a
logged error if opening a scratch file fails. -/
def checkQueuedFiles (cfg : RunnerConfig) (s : RunnerState) :
    RunnerState × DispatchOutcome :=
  if s.fileCheckQueue = [] then (s, noDispatch)
  else if cfg.binaryFile = "" then (s, noDispatch)
  else
    let arguments := dispatchArguments cfg
    let includes := dispatchIncludes cfg s
    let current := s.fileCheckQueue
    let s1 := { s with currentlyCheckingFiles := current, fileCheckQueue := [] }
    if dispatchTotalLength cfg s ≥ cfg.maxArgumentsLength then
      if s1.fileListFileContents ≠ current then
        let s2 := { s1 with fileListFileContents := current,
                            fileListFileDisk := "", includeListFileDisk := "" }
        if cfg.openSucceeds then
          let s3 := { s2 with
                      fileListFileDisk := qJoin "\n" current,
                      includeListFileDisk := qJoin "\n" (includes.map stripIncludeFlag) }
          let args := arguments ++ ["--file-list=" ++ cfg.fileListFileName,
                                    "--includes-file=" ++ cfg.includeListFileName]
          ({ s3 with processOpen := true }, ⟨some current, args, false, true, true⟩)
        else (s2, ⟨none, [], true, false, false⟩)
      else
        let args := arguments ++ ["--file-list=" ++ cfg.fileListFileName,
                                  "--includes-file=" ++ cfg.includeListFileName]
        ({ s1 with processOpen := true }, ⟨some current, args, false, false, false⟩)
    else
      let args := arguments ++ current ++ includes
      ({ s1 with processOpen := true }, ⟨some current, args, false, false, false⟩)

/-- Models the body of the `CppcheckRunner::finished` slot (lines 263-272):
report the progress handle complete and close the process. -/
def finishedSlot (s : RunnerState) : RunnerState :=
  { s with processOpen := false }

/-- Models the `QProcess::finished` signal firing: both connected slots run
in connection order — `finished` (close the process), then
`checkQueuedFiles` (drain the queue; constructor lines 47-52). -/
def processFinishedSignal (cfg : RunnerConfig) (s : RunnerState) :
    RunnerState × DispatchOutcome :=
  checkQueuedFiles cfg (finishedSlot s)

/-- Models `CppcheckRunner::error` (lines 253-261): on a failed-to-start
condition, call the `finished` slot directly with exit code `-1`. The
returned `Option Int` is the synthesized exit code (`finished` ignores it).
Only the slot body runs — a direct call emits no `QProcess::finished`
signal, and `QProcess` does not emit `finished` for a failed start, so the
queue-drain connection never fires here. -/
def errorOccurred (failedToStart : Bool) (s : RunnerState) :
    RunnerState × Option Int :=
  if failedToStart then (finishedSlot s, some (-1)) else (s, none)

/-! ### Concrete scenarios used by counterexamples -/

/-- A ceiling of 1 forces every dispatch over the spill strategy. -/
def spillCfg : RunnerConfig := ⟨"cppcheck", "", [], false, 1, "FL", "IL", true⟩

/-- Include path `a` is set, `f.c` is requested and dispatched (spilling),
the run finishes, the include path is changed to `b`, and `f.c` is
requested and dispatched again. -/
def staleIncludeRun : RunnerState × DispatchOutcome :=
  let s1 := setIncludePaths ["a"] initialRunnerState
  let s2 := (checkFiles ["f.c"] s1).1
  let s3 := (checkQueuedFiles spillCfg s2).1
  let s4 := (processFinishedSignal spillCfg s3).1
  let s5 := setIncludePaths ["b"] s4
  let s6 := (checkFiles ["f.c"] s5).1
  checkQueuedFiles spillCfg s6

/-- Include path `x` is set, `a.c` is dispatched (spilling), the run
finishes, and then `b.c` is requested: the second dispatch is inspected. -/
def redundantRewriteState : RunnerState :=
  let s1 := setIncludePaths ["x"] initialRunnerState
  let s2 := (checkFiles ["a.c"] s1).1
  let s3 := (checkQueuedFiles spillCfg s2).1
  let s4 := (processFinishedSignal spillCfg s3).1
  (checkFiles ["b.c"] s4).1

/-- A spill configuration whose scratch files cannot be opened. -/
def spillFailCfg : RunnerConfig := ⟨"cppcheck", "", [], false, 1, "FL", "IL", false⟩

/-- An idle runner with the single file `f.c` queued. -/
def queuedState : RunnerState := ⟨["f.c"], [], false, [], "", "", []⟩

/-! ### Helper lemmas -/

lemma foldl_appendFlag_eq_map (paths acc : List String) :
    paths.foldl (fun a i => a ++ ["-I" ++ i]) acc
      = acc ++ paths.map (fun i => "-I" ++ i) := by
  induction paths generalizing acc with
  | nil => simp
  | cons p ps ih => simp [List.foldl_cons, ih, List.append_assoc]

lemma qIndexOf_ge_neg_one (s pat : String) : -1 ≤ qIndexOf s pat := by
  unfold qIndexOf
  cases listIndexOf pat.toList s.toList with
  | none => exact le_refl _
  | some n => exact le_trans (by norm_num) (Int.ofNat_nonneg n)

lemma checkFiles_fst (fileNames : List String) (s : RunnerState) :
    (checkFiles fileNames s).1
      = { s with fileCheckQueue :=
            sortStrings (removeDuplicates (s.fileCheckQueue ++ fileNames)) } := by
  unfold checkFiles
  dsimp only
  split
  · split <;> rfl
  · rfl

lemma checkQueuedFiles_of_empty (cfg : RunnerConfig) (s : RunnerState)
    (h : s.fileCheckQueue = []) : checkQueuedFiles cfg s = (s, noDispatch) := by
  unfold checkQueuedFiles
  simp [h]

lemma checkQueuedFiles_starts (cfg : RunnerConfig) (s : RunnerState)
    (hne : s.fileCheckQueue ≠ []) (hbin : cfg.binaryFile ≠ "")
    (hok : cfg.openSucceeds = true) :
    (checkQueuedFiles cfg s).2.started = some s.fileCheckQueue ∧
    (checkQueuedFiles cfg s).1.fileCheckQueue = [] ∧
    (checkQueuedFiles cfg s).1.currentlyCheckingFiles = s.fileCheckQueue ∧
    (checkQueuedFiles cfg s).1.processOpen = true := by
  unfold checkQueuedFiles
  rw [if_neg hne, if_neg hbin]
  dsimp only
  split_ifs with h1 h2
  · exact ⟨rfl, rfl, rfl, rfl⟩
  · exact ⟨rfl, rfl, rfl, rfl⟩
  · exact ⟨rfl, rfl, rfl, rfl⟩

/-! ### Claims -/

/-- C10: every call to `setIncludePaths paths` replaces the previously
stored include-path flags: afterwards the stored flags are exactly `-I`
prepended to each element of `paths`, in order, whatever the earlier
state was. -/
theorem setIncludePaths_replaces (paths : List String) (s : RunnerState) :
    (setIncludePaths paths s).includePaths
      = paths.map (fun i => "-I" ++ i) := by
  simp [setIncludePaths, foldl_appendFlag_eq_map]

/-- C7: every non-empty standard-error line that splits into fewer than
five comma-separated fields is silently discarded — `readErrorLine`
emits no finding for it. -/
theorem readErrorLine_short_line_discarded (showId : Bool) (line : String)
    (_hne : line ≠ "")
    (hcount : (qSplit ',' (qTrimmed line)).length < 5) :
    readErrorLine showId line = none := by
  unfold readErrorLine
  have h4 : (qSplit ',' (qTrimmed line)).length ≤ 4 := Nat.lt_succ_iff.mp hcount
  by_cases h0 : qTrimmed line = ""
  · simp [h0]
  · simp [h0, h4]

/-- C7 witness: the three-field line `"a,b,c"` yields no finding. -/
theorem readErrorLine_short_line_discarded_witness :
    "a,b,c" ≠ "" ∧ (qSplit ',' (qTrimmed "a,b,c")).length < 5 ∧
    readErrorLine true "a,b,c" = none :=
  ⟨by decide, by decide,
   readErrorLine_short_line_discarded true "a,b,c" (by decide) (by decide)⟩

/-- C6: a standard-error line with at least five comma-separated fields
(and a non-empty severity field, a `QString::at(0)` precondition in the
source) yields a finding whose file is the first field with native
separators normalized, whose line number is the `toInt` value of the
second field, whose severity is the first character of the third field,
whose id is the fourth field exactly when the show-id option is on, and
whose message is the rest of the line from the first occurrence of the
fifth field onward. -/
theorem readErrorLine_parses_fields (showId : Bool) (line : String)
    (c : Char) (rest : List Char)
    (h5 : 5 ≤ (qSplit ',' (qTrimmed line)).length)
    (hsev : (getField (qSplit ',' (qTrimmed line)) 2).toList = c :: rest) :
    readErrorLine showId line =
      some ⟨c,
            if showId then getField (qSplit ',' (qTrimmed line)) 3 else "",
            qMid (qTrimmed line)
              (qIndexOf (qTrimmed line) (getField (qSplit ',' (qTrimmed line)) 4)) (-1),
            fromNativeSeparators (getField (qSplit ',' (qTrimmed line)) 0),
            qToInt (getField (qSplit ',' (qTrimmed line)) 1)⟩ := by
  have h0 : qTrimmed line ≠ "" := by
    intro h
    rw [h] at h5
    have : (qSplit ',' "").length = 1 := by decide
    omega
  have h4 : ¬ (qSplit ',' (qTrimmed line)).length ≤ 4 := by omega
  have hdata : (getField (qSplit ',' (qTrimmed line)) 2).data = c :: rest := hsev
  unfold readErrorLine
  simp [h0, h4, stringFront, hdata]

/-- C3: if a run over a non-empty set `S` is in flight and `checkFiles`
merges the pending queue back to exactly `S`, the running process is killed,
and the finish event dispatches exactly one new run over `S`: the queue is
drained, the current set is `S` again, and one process is started (given a
configured binary and writable scratch files). -/
theorem checkFiles_identical_set_restarts (S fileNames : List String)
    (s : RunnerState) (cfg : RunnerConfig)
    (hS : S ≠ [])
    (hopen : s.processOpen = true)
    (hcur : s.currentlyCheckingFiles = S)
    (hmerged : (checkFiles fileNames s).1.fileCheckQueue = S)
    (hbin : cfg.binaryFile ≠ "")
    (hok : cfg.openSucceeds = true) :
    (checkFiles fileNames s).2 = true ∧
    (processFinishedSignal cfg (checkFiles fileNames s).1).2.started = some S ∧
    (processFinishedSignal cfg (checkFiles fileNames s).1).1.fileCheckQueue = [] ∧
    (processFinishedSignal cfg (checkFiles fileNames s).1).1.currentlyCheckingFiles = S ∧
    (processFinishedSignal cfg (checkFiles fileNames s).1).1.processOpen = true := by
  have hfst := checkFiles_fst fileNames s
  have hq : sortStrings (removeDuplicates (s.fileCheckQueue ++ fileNames)) = S := by
    rw [hfst] at hmerged
    exact hmerged
  have hkill : (checkFiles fileNames s).2 = true := by
    unfold checkFiles
    dsimp only
    rw [if_pos hopen, hq, hcur, if_pos rfl]
  refine ⟨hkill, ?_⟩
  have hstate : finishedSlot (checkFiles fileNames s).1
      = { s with fileCheckQueue := S, processOpen := false } := by
    rw [hfst, hq]
    rfl
  have h := checkQueuedFiles_starts cfg
    { s with fileCheckQueue := S, processOpen := false }
    (by simpa using hS) hbin hok
  unfold processFinishedSignal
  rw [hstate]
  exact h

/-- C3 witness: a concrete in-flight set `["a.c"]` re-requested while the
run is live is killed and dispatched exactly once after the finish. -/
theorem checkFiles_identical_set_restarts_witness :
    (checkFiles ["a.c"] ⟨[], ["a.c"], true, [], "", "", []⟩).2 = true ∧
    (processFinishedSignal ⟨"cppcheck", "", [], false, 1000, "FL", "IL", true⟩
      (checkFiles ["a.c"] ⟨[], ["a.c"], true, [], "", "", []⟩).1).2.started = some ["a.c"] ∧
    (processFinishedSignal ⟨"cppcheck", "", [], false, 1000, "FL", "IL", true⟩
      (checkFiles ["a.c"] ⟨[], ["a.c"], true, [], "", "", []⟩).1).1.fileCheckQueue = [] := by
  have h := checkFiles_identical_set_restarts ["a.c"] ["a.c"]
    ⟨[], ["a.c"], true, [], "", "", []⟩
    ⟨"cppcheck", "", [], false, 1000, "FL", "IL", true⟩
    (by decide) (by decide) (by decide) (by decide) (by decide) (by decide)
  exact ⟨h.1, h.2.1, h.2.2.1⟩

/-- C8: `stopChecking` while a process is running clears the pending queue
and kills the process, and the finish-triggered queue drain afterwards is a
no-op on the empty queue, so no further run is dispatched automatically. -/
theorem stopChecking_clears_and_no_restart (s : RunnerState) (cfg : RunnerConfig)
    (hopen : s.processOpen = true) :
    (stopChecking s).1.fileCheckQueue = [] ∧
    (stopChecking s).2 = true ∧
    processFinishedSignal cfg (stopChecking s).1
      = (finishedSlot (stopChecking s).1, noDispatch) ∧
    (finishedSlot (stopChecking s).1).processOpen = false := by
  refine ⟨rfl, hopen, ?_, rfl⟩
  unfold processFinishedSignal
  exact checkQueuedFiles_of_empty cfg _ rfl

/-- C8 witness: stopping a concrete running state. -/
theorem stopChecking_clears_and_no_restart_witness :
    (stopChecking ⟨["a.c"], ["a.c"], true, [], "", "", []⟩).1.fileCheckQueue = [] ∧
    (processFinishedSignal ⟨"cppcheck", "", [], false, 1000, "FL", "IL", true⟩
      (stopChecking ⟨["a.c"], ["a.c"], true, [], "", "", []⟩).1).2.started = none := by
  have h := stopChecking_clears_and_no_restart
    ⟨["a.c"], ["a.c"], true, [], "", "", []⟩
    ⟨"cppcheck", "", [], false, 1000, "FL", "IL", true⟩ (by decide)
  exact ⟨h.1, by rw [h.2.2.1]; rfl⟩

/-- C2 counterexample: with files `["a.c"]` queued behind a running
process, a failed start leaves the queue in place and dispatches nothing,
whereas ordinary finish processing would dispatch `["a.c"]` — so the
synthesized finish does not perform the same queue-drain processing. -/
theorem errorOccurred_no_drain_counterexample :
    (errorOccurred true ⟨["a.c"], ["b.c"], true, [], "", "", []⟩).1.fileCheckQueue
      = ["a.c"] ∧
    (processFinishedSignal ⟨"cppcheck", "", [], false, 1000, "FL", "IL", true⟩
      ⟨["a.c"], ["b.c"], true, [], "", "", []⟩).2.started = some ["a.c"] ∧
    (processFinishedSignal ⟨"cppcheck", "", [], false, 1000, "FL", "IL", true⟩
      ⟨["a.c"], ["b.c"], true, [], "", "", []⟩).1.fileCheckQueue = [] ∧
    (errorOccurred true ⟨["a.c"], ["b.c"], true, [], "", "", []⟩).1
      ≠ (processFinishedSignal ⟨"cppcheck", "", [], false, 1000, "FL", "IL", true⟩
          ⟨["a.c"], ["b.c"], true, [], "", "", []⟩).1 := by decide

/-- C2 amended: on a failed-to-start error the scheduler synthesizes an
immediate finish with the distinguished non-success code `-1` by invoking
the finish slot directly — which completes the run and closes the process —
but the queue-drain step is attached to the process's finished signal,
which does not fire for a failed start, so queued files stay queued and
nothing is dispatched until a later trigger. -/
theorem errorOccurred_synthesizes_finish (s : RunnerState) :
    errorOccurred true s = (finishedSlot s, some (-1)) ∧
    (errorOccurred true s).1.fileCheckQueue = s.fileCheckQueue ∧
    (errorOccurred true s).1.processOpen = false :=
  ⟨rfl, rfl, rfl⟩

/-- C6 witness: the spec's example line, with id display on and off. -/
theorem readErrorLine_parses_fields_witness :
    readErrorLine true "/a/b.c,42,error,nullPointer,msg, with comma" =
      some ⟨'e', "nullPointer", "msg, with comma", "/a/b.c", 42⟩ ∧
    readErrorLine false "/a/b.c,42,error,nullPointer,msg, with comma" =
      some ⟨'e', "", "msg, with comma", "/a/b.c", 42⟩ := by
  constructor
  · exact (readErrorLine_parses_fields true
      "/a/b.c,42,error,nullPointer,msg, with comma" 'e' ['r', 'r', 'o', 'r']
      (by decide) (by decide)).trans (by decide)
  · exact (readErrorLine_parses_fields false
      "/a/b.c,42,error,nullPointer,msg, with comma" 'e' ['r', 'r', 'o', 'r']
      (by decide) (by decide)).trans (by decide)

/-- C1 counterexample: with `f.c` queued and unwritable scratch files, the
dispatch aborts and logs an error, but the pending queue — `["f.c"]` before
the call — is empty afterwards, not preserved: the set cannot be retried by
a later trigger. -/
theorem scratch_failure_queue_cleared_counterexample :
    (checkQueuedFiles spillFailCfg queuedState).2.errorLogged = true ∧
    (checkQueuedFiles spillFailCfg queuedState).2.started = none ∧
    queuedState.fileCheckQueue = ["f.c"] ∧
    (checkQueuedFiles spillFailCfg queuedState).1.fileCheckQueue
      ≠ queuedState.fileCheckQueue := by decide

/-- C1 amended: if opening either scratch file fails during a spill
dispatch, the run is aborted (no process start) and a tool-level error is
logged; however the pending queue was already moved into the current-files
register and cleared before the spill attempt, so after the abort the queue
is empty and the file set is not retried on a later trigger. -/
theorem scratch_failure_aborts_and_clears_queue (cfg : RunnerConfig)
    (s : RunnerState)
    (hne : s.fileCheckQueue ≠ []) (hbin : cfg.binaryFile ≠ "")
    (hlen : dispatchTotalLength cfg s ≥ cfg.maxArgumentsLength)
    (hdiff : s.fileListFileContents ≠ s.fileCheckQueue)
    (hfail : cfg.openSucceeds = false) :
    (checkQueuedFiles cfg s).2.started = none ∧
    (checkQueuedFiles cfg s).2.errorLogged = true ∧
    (checkQueuedFiles cfg s).1.fileCheckQueue = [] ∧
    (checkQueuedFiles cfg s).1.currentlyCheckingFiles = s.fileCheckQueue ∧
    (checkQueuedFiles cfg s).1.processOpen = s.processOpen := by
  unfold checkQueuedFiles
  rw [if_neg hne, if_neg hbin]
  dsimp only
  rw [if_pos hlen, if_pos hdiff, if_neg (by simp [hfail])]
  exact ⟨rfl, rfl, rfl, rfl, rfl⟩

/-- C1 amended witness: the concrete failing dispatch. -/
theorem scratch_failure_aborts_and_clears_queue_witness :
    queuedState.fileCheckQueue = ["f.c"] ∧
    (checkQueuedFiles spillFailCfg queuedState).2.errorLogged = true ∧
    (checkQueuedFiles spillFailCfg queuedState).1.fileCheckQueue = [] := by
  have h := scratch_failure_aborts_and_clears_queue spillFailCfg queuedState
    (by decide) (by decide) (by decide) (by decide) (by decide)
  exact ⟨by decide, h.2.1, h.2.2.1⟩

/-- C4 counterexample: in `staleIncludeRun`, the second spill dispatch of
the unchanged file set `["f.c"]` reuses the scratch files: the include-list
file still holds `a` from the first dispatch even though the current
include flags are `["-Ib"]`, so it does not contain the dispatched include
directories with the `-I` prefix stripped. -/
theorem spill_stale_includes_counterexample :
    staleIncludeRun.2.started = some ["f.c"] ∧
    staleIncludeRun.2.argumentsUsed
      = ["--file-list=FL", "--includes-file=IL"] ∧
    staleIncludeRun.1.includePaths = ["-Ib"] ∧
    staleIncludeRun.1.includeListFileDisk = "a" ∧
    staleIncludeRun.1.includeListFileDisk
      ≠ qJoin "\n" (staleIncludeRun.1.includePaths.map stripIncludeFlag) := by
  decide

/-- C4 amended: with ceiling `C = maxArgumentsLength`: if the summed
space-joined lengths of fixed arguments, include flags and file paths are
strictly below `C`, files and includes are passed inline; if they reach
`C`, the spill strategy is used, and on dispatches where the file set
differs from the cached spill contents (with scratch files writable) the
file-list scratch file holds exactly the dispatched (sorted) file set one
path per line and the include-list scratch file holds the include
directories with the leading `-I` prefix stripped. When the file set
equals the cached contents the scratch files are reused unchanged, so the
include list may be stale. -/
theorem dispatch_length_strategy (cfg : RunnerConfig) (s : RunnerState)
    (hne : s.fileCheckQueue ≠ []) (hbin : cfg.binaryFile ≠ "") :
    (dispatchTotalLength cfg s < cfg.maxArgumentsLength →
      checkQueuedFiles cfg s =
        ({ s with currentlyCheckingFiles := s.fileCheckQueue,
                  fileCheckQueue := [], processOpen := true },
         ⟨some s.fileCheckQueue,
          dispatchArguments cfg ++ s.fileCheckQueue ++ dispatchIncludes cfg s,
          false, false, false⟩)) ∧
    (dispatchTotalLength cfg s ≥ cfg.maxArgumentsLength →
     s.fileListFileContents ≠ s.fileCheckQueue →
     cfg.openSucceeds = true →
      checkQueuedFiles cfg s =
        ({ s with currentlyCheckingFiles := s.fileCheckQueue,
                  fileCheckQueue := [],
                  fileListFileContents := s.fileCheckQueue,
                  fileListFileDisk := qJoin "\n" s.fileCheckQueue,
                  includeListFileDisk :=
                    qJoin "\n" ((dispatchIncludes cfg s).map stripIncludeFlag),
                  processOpen := true },
         ⟨some s.fileCheckQueue,
          dispatchArguments cfg
            ++ ["--file-list=" ++ cfg.fileListFileName,
                "--includes-file=" ++ cfg.includeListFileName],
          false, true, true⟩)) := by
  constructor
  · intro hlt
    unfold checkQueuedFiles
    rw [if_neg hne, if_neg hbin]
    dsimp only
    rw [if_neg (by omega)]
  · intro hge hdiff hok
    unfold checkQueuedFiles
    rw [if_neg hne, if_neg hbin]
    dsimp only
    rw [if_pos hge, if_pos hdiff, if_pos hok]

/-- C4 amended witness: one concrete inline dispatch (below the ceiling)
and one concrete spill dispatch (at the ceiling, changed file set). -/
theorem dispatch_length_strategy_witness :
    (checkQueuedFiles ⟨"cppcheck", "", [], false, 1000, "FL", "IL", true⟩
        ⟨["a.c"], [], false, [], "", "", ["-Ix"]⟩).2.argumentsUsed
      = ["a.c", "-Ix"] ∧
    (checkQueuedFiles ⟨"cppcheck", "", [], false, 1, "FL", "IL", true⟩
        ⟨["a.c"], [], false, [], "", "", ["-Ix"]⟩).1.fileListFileDisk = "a.c" ∧
    (checkQueuedFiles ⟨"cppcheck", "", [], false, 1, "FL", "IL", true⟩
        ⟨["a.c"], [], false, [], "", "", ["-Ix"]⟩).1.includeListFileDisk = "x" := by
  have h1 := (dispatch_length_strategy
    ⟨"cppcheck", "", [], false, 1000, "FL", "IL", true⟩
    ⟨["a.c"], [], false, [], "", "", ["-Ix"]⟩ (by decide) (by decide)).1
    (by decide)
  have h2 := (dispatch_length_strategy
    ⟨"cppcheck", "", [], false, 1, "FL", "IL", true⟩
    ⟨["a.c"], [], false, [], "", "", ["-Ix"]⟩ (by decide) (by decide)).2
    (by decide) (by decide) (by decide)
  refine ⟨?_, ?_, ?_⟩
  · rw [h1]
    decide
  · rw [h2]
    decide
  · rw [h2]
    decide

/-- C5 counterexample: in the second dispatch from
`redundantRewriteState` (file set changed from `["a.c"]` to `["b.c"]`,
include flags unchanged), the include-list scratch file already holds `x`
and its target content is again `x`, yet it is truncated and rewritten —
not left untouched. -/
theorem scratch_rewrite_counterexample :
    redundantRewriteState.includeListFileDisk = "x" ∧
    qJoin "\n" ((dispatchIncludes spillCfg redundantRewriteState).map stripIncludeFlag)
      = "x" ∧
    (checkQueuedFiles spillCfg redundantRewriteState).2.includeListWritten = true ∧
    (checkQueuedFiles spillCfg redundantRewriteState).2.started = some ["b.c"] := by
  decide

/-- C5 amended: on a spill dispatch with writable scratch files, the
file-list scratch file is truncated and rewritten exactly when its target
content (the dispatched file set) differs from what it holds; the
include-list scratch file is truncated and rewritten on exactly those same
dispatches — keyed to the file list's change, not to its own content — and
both files are left untouched when the file set is unchanged. -/
theorem scratch_rewrite_policy (cfg : RunnerConfig) (s : RunnerState)
    (hne : s.fileCheckQueue ≠ []) (hbin : cfg.binaryFile ≠ "")
    (hge : dispatchTotalLength cfg s ≥ cfg.maxArgumentsLength)
    (hok : cfg.openSucceeds = true) :
    ((checkQueuedFiles cfg s).2.fileListWritten = true
        ↔ s.fileListFileContents ≠ s.fileCheckQueue) ∧
    (checkQueuedFiles cfg s).2.includeListWritten
      = (checkQueuedFiles cfg s).2.fileListWritten ∧
    (s.fileListFileContents = s.fileCheckQueue →
      (checkQueuedFiles cfg s).1.fileListFileDisk = s.fileListFileDisk ∧
      (checkQueuedFiles cfg s).1.includeListFileDisk = s.includeListFileDisk) := by
  unfold checkQueuedFiles
  rw [if_neg hne, if_neg hbin]
  dsimp only
  rw [if_pos hge]
  by_cases hdiff : s.fileListFileContents ≠ s.fileCheckQueue
  · rw [if_pos hdiff, if_pos hok]
    exact ⟨by simpa using hdiff, rfl, fun h => absurd h hdiff⟩
  · rw [if_neg hdiff]
    exact ⟨by simpa using hdiff, rfl, fun _ => ⟨rfl, rfl⟩⟩

/-- C5 amended witness: the concrete second dispatch rewrites both files
because the file set changed, although the include content is unchanged. -/
theorem scratch_rewrite_policy_witness :
    redundantRewriteState.fileListFileContents ≠ redundantRewriteState.fileCheckQueue ∧
    (checkQueuedFiles spillCfg redundantRewriteState).2.fileListWritten = true ∧
    (checkQueuedFiles spillCfg redundantRewriteState).2.includeListWritten = true := by
  have h := scratch_rewrite_policy spillCfg redundantRewriteState
    (by decide) (by decide) (by decide) (by decide)
  refine ⟨by decide, h.1.mpr (by decide), ?_⟩
  rw [h.2.1, h.1.mpr (by decide)]

/-- C9 counterexample: captured help output containing an
`Example usage:` marker but no `Options:` marker still opens a text
surface (showing the text before the marker), rather than doing nothing. -/
theorem optionsWidgetFinished_counterexample :
    qIndexOf (qTrimmed "blah Example usage: x") "Options:" = -1 ∧
    optionsWidgetFinished ["--help"] "blah Example usage: x" = some "blah " := by
  decide

/-- C9 amended: for the help action's captured output — if both literal
markers are present with `Options:` first, the substring from `Options:`
up to `Example usage:` is displayed; if `Example usage:` is absent, or the
markers are out of order (`Options:` at or after `Example usage:`), nothing
is shown; but if `Options:` is absent while `Example usage:` is present,
a text surface is still shown, holding the (possibly empty) prefix of the
output before the `Example usage:` marker, by Qt's negative-position `mid`
clamping. -/
theorem optionsWidgetFinished_markers (output : String) :
    (0 ≤ qIndexOf (qTrimmed output) "Options:" →
     qIndexOf (qTrimmed output) "Options:"
        < qIndexOf (qTrimmed output) "Example usage:" →
     optionsWidgetFinished [helpArg] output =
       some (qMid (qTrimmed output) (qIndexOf (qTrimmed output) "Options:")
         (qIndexOf (qTrimmed output) "Example usage:"
           - qIndexOf (qTrimmed output) "Options:"))) ∧
    (qIndexOf (qTrimmed output) "Example usage:" = -1 →
     optionsWidgetFinished [helpArg] output = none) ∧
    (qIndexOf (qTrimmed output) "Options:"
        ≥ qIndexOf (qTrimmed output) "Example usage:" →
     optionsWidgetFinished [helpArg] output = none) ∧
    (qIndexOf (qTrimmed output) "Options:" = -1 →
     0 ≤ qIndexOf (qTrimmed output) "Example usage:" →
     optionsWidgetFinished [helpArg] output =
       some (qMid (qTrimmed output) (-1)
         (qIndexOf (qTrimmed output) "Example usage:" + 1))) := by
  refine ⟨?_, ?_, ?_, ?_⟩
  · intro _ hlt
    unfold optionsWidgetFinished
    rw [if_pos (by decide), if_neg (by omega)]
  · intro habs
    unfold optionsWidgetFinished
    rw [if_pos (by decide),
        if_pos (by rw [habs]; exact qIndexOf_ge_neg_one _ _)]
  · intro hge
    unfold optionsWidgetFinished
    rw [if_pos (by decide), if_pos hge]
  · intro habs hpos
    unfold optionsWidgetFinished
    rw [if_pos (by decide), if_neg (by omega), habs]
    norm_num

/-- C9 amended witness: a concrete in-order extraction. -/
theorem optionsWidgetFinished_markers_witness :
    0 ≤ qIndexOf (qTrimmed "zz Options: A Example usage: B") "Options:" ∧
    optionsWidgetFinished [helpArg] "zz Options: A Example usage: B"
      = some "Options: A " := by
  refine ⟨by decide, ?_⟩
  exact ((optionsWidgetFinished_markers "zz Options: A Example usage: B").1
    (by decide) (by decide)).trans (by decide)

end QtcCppcheck
